import Mathlib

/-!
Shallow embedding of `neural_networks/core/_dnn.py` (the `DeepNeuralNetwork`
base class, the `get_layer_class` factory and the `load_dumped_model` loader)
together with the argument-checking helpers `check_type_validity`,
`check_positive_int` and `raise_type_error` from `data/utils/_utils.py`.

Python values appearing in the arguments of these functions are modelled by a
finite-depth value datatype (`PyScalar` / `PyVal1` / `CfgEntry`): scalars,
one-level lists, tuples and string-keyed dicts, which covers every value the
checked code paths inspect.  `n_targets` is modelled as an integer (the
`check_type_validity(self.n_targets, int, ...)` step of `check_positive_int`
is therefore always satisfied in the model).  Tensorflow objects (sessions,
placeholders, layer outputs) are not given numeric semantics: placeholders are
recorded by their shapes and a layer's `output` tensor plays no role in any
statement below.  The concrete layer classes (`neural_networks.components`),
`get_object`, `instanciate` and `onetimemethod` (`neural_networks.utils`) are
not part of the source tree; where they decide behaviour they are modelled
from the specification and marked as such in their doc comments.
-/

namespace Ac2Art

instance {ε α : Type} [DecidableEq ε] [DecidableEq α] : DecidableEq (Except ε α) :=
  fun x y => by
    cases x <;> cases y <;>
      first
        | (rename_i a b
           exact if h : a = b then isTrue (congrArg _ h)
             else isFalse (fun hh => h (by injection hh)))
        | (exact isFalse (fun hh => by injection hh))

/-- The layer classes named by `_dnn.py`: the concrete classes of the
`reference_dict` registry, their abstract bases used in `issubclass` tests,
and a stand-in for an arbitrary unrelated class. -/
inductive LayerClassT where
  | DenseLayer
  | RecurrentNeuralNetwork
  | BidirectionalRNN
  | LowpassFilter
  | NeuralLayer
  | AbstractRNN
  | SignalFilter
  | OtherClass (name : String)
deriving DecidableEq, Repr

/-- `issubclass(c, AbstractRNN)`: `RecurrentNeuralNetwork` and
`BidirectionalRNN` are the RNN stack classes of `neural_networks.components.rnn`. -/
def isSubAbstractRNN : LayerClassT → Bool
  | .AbstractRNN | .RecurrentNeuralNetwork | .BidirectionalRNN => true
  | _ => false

/-- `issubclass(c, NeuralLayer)`: `DenseLayer` subclasses `NeuralLayer`. -/
def isSubNeuralLayer : LayerClassT → Bool
  | .NeuralLayer | .DenseLayer => true
  | _ => false

/-- `issubclass(c, SignalFilter)`: `LowpassFilter` subclasses `SignalFilter`. -/
def isSubSignalFilter : LayerClassT → Bool
  | .SignalFilter | .LowpassFilter => true
  | _ => false

/-- `issubclass(c, DenseLayer)`. -/
def isSubDenseLayer : LayerClassT → Bool
  | .DenseLayer => true
  | _ => false

/-- Python exceptions raised by the embedded code paths. -/
inductive PyError where
  | typeError (msg : String)
  | valueError (msg : String)
  | keyError (key : String)
  | attributeError (msg : String)
  | indexError (msg : String)
deriving DecidableEq, Repr

/-- `True` exactly for `TypeError` values. -/
def PyError.isTypeError : PyError → Bool
  | .typeError _ => true
  | _ => false

/-- Scalar Python values. -/
inductive PyScalar where
  | sNone
  | sInt (n : Int)
  | sStr (s : String)
  | sType (c : LayerClassT)
deriving DecidableEq, Repr

/-- One-level Python values: scalars, lists, tuples and dicts of scalars.
These are the values appearing as elements of a `layers_config` entry. -/
inductive PyVal1 where
  | vScalar (s : PyScalar)
  | vList (l : List PyScalar)
  | vTuple (l : List PyScalar)
  | vDict (d : List (String × PyScalar))
deriving DecidableEq, Repr

/-- One entry of the `layers_config` list: either a tuple of one-level values
or a non-tuple value. -/
inductive CfgEntry where
  | ceTuple (elems : List PyVal1)
  | ceScalar (s : PyScalar)
  | ceList (l : List PyScalar)
  | ceDict (d : List (String × PyScalar))
deriving DecidableEq, Repr

/-- The `layers_config` argument: a Python list of entries, or a value of some
other type (rejected by `check_type_validity(self.layers_config, list, ...)`). -/
inductive LayersConfigVal where
  | lcList (entries : List CfgEntry)
  | lcOther (v : PyScalar)
deriving DecidableEq, Repr

/-- The `input_shape` argument: a tuple, list or `tensorflow.TensorShape` of
dimensions (`None` or an integer each), or a value of some other type. -/
inductive InputShapeVal where
  | isTuple (dims : List (Option Int))
  | isList (dims : List (Option Int))
  | isTensorShape (dims : List (Option Int))
  | isOther (v : PyScalar)
deriving DecidableEq, Repr

/-- The dimensions of an accepted `input_shape` value. -/
def InputShapeVal.dims? : InputShapeVal → Option (List (Option Int))
  | .isTuple d => some d
  | .isList d => some d
  | .isTensorShape d => some d
  | .isOther _ => none

/-- A numpy array, recorded by its shape (its entries play no role in the
checked code paths). -/
structure NdArray where
  shape : List Int
deriving DecidableEq, Repr

/-- The `_init_arguments` dict recorded by `__init__`: the four named
initialization arguments of `DeepNeuralNetwork.__init__`. -/
structure InitArgs where
  input_shape : InputShapeVal
  n_targets : Int
  layers_config : LayersConfigVal
  norm_params : Option NdArray
deriving DecidableEq, Repr

/-- `raise_type_error` from `data/utils/_utils.py`: builds the message
`"Expected '<name>' to be of type <types>, not <actual>."`. -/
def raise_type_error (varName : String) (validNames : List String) (actual : String) : PyError :=
  let namesString :=
    match validNames with
    | [] => ""
    | [n] => n
    | ns => String.intercalate ", " (ns.dropLast) ++ " or " ++ (ns.getLast! )
  .typeError ("Expected '" ++ varName ++ "' to be of type " ++ namesString
    ++ ", not " ++ actual ++ ".")

/-- The runtime type name of a scalar, as `type(x).__name__` would render it. -/
def PyScalar.typeName : PyScalar → String
  | .sNone => "NoneType"
  | .sInt _ => "int"
  | .sStr _ => "str"
  | .sType _ => "type"

/-- The runtime type name of a one-level value. -/
def PyVal1.typeName : PyVal1 → String
  | .vScalar s => s.typeName
  | .vList _ => "list"
  | .vTuple _ => "tuple"
  | .vDict _ => "dict"

/-- `check_type_validity(self.input_shape, (tuple, list, tf.TensorShape),
'input_shape')` followed by the `len(self.input_shape) == 1` test of
`_validate_args`. -/
def checkInputShape (v : InputShapeVal) : Option PyError :=
  match v with
  | .isOther s =>
      some (raise_type_error "input_shape" ["tuple", "list", "TensorShape"] s.typeName)
  | .isTuple d | .isList d | .isTensorShape d =>
      if d.length = 1 then
        some (.typeError "'input_shape' must be at least bi-dimensional.")
      else
        none

/-- `check_type_validity(config[0], (str, type), 'layer class')`. -/
def checkLayerClassElem : PyVal1 → Option PyError
  | .vScalar (.sStr _) => none
  | .vScalar (.sType _) => none
  | v => some (raise_type_error "layer class" ["str", "type"] v.typeName)

/-- `check_type_validity(config[1], (int, list, tuple), 'layer config primary
parameter')`. -/
def checkPrimaryParam : PyVal1 → Option PyError
  | .vScalar (.sInt _) => none
  | .vList _ => none
  | .vTuple _ => none
  | v => some (raise_type_error "layer config primary parameter" ["int", "list", "tuple"] v.typeName)

/-- `check_type_validity(config[2], dict, 'layer config kwargs')`. -/
def checkKwargsElem : PyVal1 → Option PyError
  | .vDict _ => none
  | v => some (raise_type_error "layer config kwargs" ["dict"] v.typeName)

/-- The three sub-element checks of `_validate_args` on a (normalized)
three-element layer configuration tuple, in source order. -/
def checkEntryElems (elems : List PyVal1) : Option PyError :=
  match elems with
  | [c0, c1, c2] =>
      (checkLayerClassElem c0).orElse fun _ =>
        (checkPrimaryParam c1).orElse fun _ => checkKwargsElem c2
  | _ => none

/-- The `for i, config in enumerate(self.layers_config)` loop of
`_validate_args`.  Returns the list as left by the loop (the in-place
normalization `self.layers_config[i] = config = (*config, {})` of two-element
tuples persists even when a later check fails) together with the first error
raised, if any. -/
def validateEntriesFrom : List CfgEntry → List CfgEntry × Option PyError
  | [] => ([], none)
  | e :: rest =>
    match e with
    | .ceTuple elems =>
      if elems.length = 2 then
        match checkEntryElems (elems ++ [.vDict []]) with
        | some err => (.ceTuple (elems ++ [.vDict []]) :: rest, some err)
        | none =>
            let (r, err) := validateEntriesFrom rest
            (.ceTuple (elems ++ [.vDict []]) :: r, err)
      else if elems.length = 3 then
        match checkEntryElems elems with
        | some err => (e :: rest, some err)
        | none =>
            let (r, err) := validateEntriesFrom rest
            (e :: r, err)
      else
        (e :: rest, some (.typeError "Wrong 'layers_config' element tuple length."))
    | _ => (e :: rest, some (.typeError "'layers_config' elements should be tuples."))

/-- `DeepNeuralNetwork._validate_args`: validates `input_shape`,
`layers_config` (normalizing its two-element tuples in place), `n_targets`
and `norm_params`, in source order.  Returns the initialization arguments as
left by the method (the caller-visible in-place mutation of `layers_config`)
and the first error raised, if any. -/
def validate_args (a : InitArgs) : InitArgs × Option PyError :=
  match checkInputShape a.input_shape with
  | some e => (a, some e)
  | none =>
    match a.layers_config with
    | .lcOther v => (a, some (raise_type_error "layers_config" ["list"] v.typeName))
    | .lcList entries =>
      let (entries2, err) := validateEntriesFrom entries
      let a2 := { a with layers_config := .lcList entries2 }
      match err with
      | some e => (a2, some e)
      | none =>
        if a.n_targets ≤ 0 then
          (a2, some (.valueError "'n_targets' must be positive."))
        else
          match a.norm_params with
          | none => (a2, none)
          | some arr =>
            if arr.shape = [a.n_targets] then (a2, none)
            else
              (a2, some (.typeError ("Wrong 'norm_params' shape: "
                ++ toString (repr arr.shape) ++ " instead of (" ++ toString a.n_targets ++ ",)")))

/-- Decimal digits of a natural number, most significant first, by structural
recursion on a fuel bound (any `fuel > n` yields the digits of `n`). -/
def decCharsGo (fuel n : Nat) : List Char :=
  match fuel with
  | 0 => []
  | f + 1 =>
    if n < 10 then [Nat.digitChar n]
    else decCharsGo f (n / 10) ++ [Nat.digitChar (n % 10)]

/-- Decimal rendering of a natural number, most significant digit first:
the model of Python's `'%s' % count` string interpolation. -/
def decChars (n : Nat) : List Char := decCharsGo (n + 1) n

/-- Decimal rendering of a natural number as a string. -/
def decStr (n : Nat) : String := String.mk (decChars n)

/-- Decimal parsing, the left inverse of `decChars`. -/
def decParse (cs : List Char) : Nat :=
  cs.foldl (fun acc c => 10 * acc + (c.toNat - 48)) 0

/-- The default layer name `name + '_%s' % layers_count.setdefault(name, 0)`
synthesized by `_build_hidden_layers`. -/
def mkDefName (kind : String) (i : Nat) : String := kind ++ "_" ++ decStr i

/-- `kwargs.pop(key, ...)`: the looked-up value (if any) and the dict with
the key removed. -/
def dictPop (d : List (String × PyScalar)) (k : String) :
    Option PyScalar × List (String × PyScalar) :=
  (d.lookup k, d.filter (fun p => p.1 ≠ k))

/-- `kwargs[key] = value`: replace the binding in place if the key is
present, append it otherwise. -/
def dictSet : List (String × PyScalar) → String → PyScalar → List (String × PyScalar)
  | [], k, v => [(k, v)]
  | p :: rest, k, v => if p.1 = k then (k, v) :: rest else p :: dictSet rest k v

/-- The registry of short layer-class names built inside `get_layer_class`. -/
def reference_dict : List (String × LayerClassT) :=
  [("dense_layer", .DenseLayer), ("rnn_stack", .RecurrentNeuralNetwork),
   ("bi_rnn_stack", .BidirectionalRNN), ("lowpass_filter", .LowpassFilter)]

/-- Modelled from the spec: `get_object` (from `neural_networks.utils`, not
part of the source tree) looks a name up in a registry dict and fails with a
lookup error identifying the unknown name if it is absent. -/
def get_object (name : String) (ref : List (String × LayerClassT)) :
    Except PyError LayerClassT :=
  match ref.lookup name with
  | some c => .ok c
  | none => .error (.keyError name)

/-- `get_layer_class` from `_dnn.py`: a string is resolved through the
registry; a type is accepted when it subclasses `AbstractRNN`, `NeuralLayer`
or `SignalFilter` and rejected with a `TypeError` otherwise.  A value that is
neither a string nor a type reaches `issubclass`, which raises a `TypeError`
of its own. -/
def get_layer_class : PyVal1 → Except PyError LayerClassT
  | .vScalar (.sStr s) => get_object s reference_dict
  | .vScalar (.sType c) =>
      if isSubAbstractRNN c || isSubNeuralLayer c || isSubSignalFilter c then .ok c
      else .error (.typeError "'layer_class' should be a str or an adequate class.")
  | _ => .error (.typeError "issubclass() arg 1 must be a class")

/-- The dropout keep-probability argument passed to a dense or recurrent
layer's constructor: the network-wide `keep_prob` placeholder, or the value
found under the `keep_prob` key of the layer's keyword arguments. -/
inductive KeepProbArg where
  | holderDefault
  | explicitArg (v : PyScalar)
deriving DecidableEq, Repr

/-- Modelled from the spec: a layer instance (the concrete layer classes of
`neural_networks.components` are not part of the source tree).  It records
its constructor arguments — class, primary parameter, the injected
`keep_prob` argument (absent for signal filters) and the remaining keyword
arguments — and holds mutable parameter values; `get_values`/`set_values`
read and replace those values. -/
structure Layer where
  cls : LayerClassT
  n_units : PyVal1
  keep_prob : Option KeepProbArg
  kwargs : List (String × PyScalar)
  values : Int
deriving DecidableEq, Repr

/-- Modelled from the spec: a layer's `configuration` descriptor is
determined by its constructor arguments, excluding its parameter values and
excluding the instance-qualified internal `name` (which embeds `id(self)` of
the owning network and is not part of the architecture fingerprint). -/
structure LayerConfig where
  cls : LayerClassT
  n_units : PyVal1
  keep_prob : Option KeepProbArg
  kwargs : List (String × PyScalar)
deriving DecidableEq, Repr

/-- The `configuration` attribute of a layer. -/
def Layer.configuration (l : Layer) : LayerConfig :=
  ⟨l.cls, l.n_units, l.keep_prob, l.kwargs.filter (fun p => p.1 ≠ "name")⟩

/-- `self._layers[layer_name] = layer` on an `OrderedDict`: an existing key
keeps its position and gets its value overwritten, a fresh key is appended. -/
def odInsert : List (PyScalar × Layer) → PyScalar → Layer → List (PyScalar × Layer)
  | [], k, v => [(k, v)]
  | p :: rest, k, v => if p.1 = k then (k, v) :: rest else p :: odInsert rest k v

/-- State of the `_build_hidden_layers` loop: the `_layers` ordered dict and
the `layers_count` counter dict (keyed by the entry's class-or-name element). -/
structure BuildState where
  layers : List (PyScalar × Layer)
  counts : List (PyVal1 × Nat)
deriving DecidableEq, Repr

/-- `layers_count.setdefault(name, 0)` / `layers_count[name] = v`. -/
def countsGet (l : List (PyVal1 × Nat)) (k : PyVal1) : Nat := (l.lookup k).getD 0

/-- Write a counter value (replace in place or append). -/
def countsSet : List (PyVal1 × Nat) → PyVal1 → Nat → List (PyVal1 × Nat)
  | [], k, v => [(k, v)]
  | p :: rest, k, v => if p.1 = k then (k, v) :: rest else p :: countsSet rest k v

/-- The default-name expression `name + '_%s' % layers_count.setdefault(name, 0)`;
it is evaluated eagerly (as the default argument of `kwargs.pop`), so a
non-string class-or-name element raises a `TypeError` from the `+` even when
an explicit `name` keyword is supplied. -/
def defaultNameOf (classElem : PyVal1) (cnt : Nat) : Except PyError PyScalar :=
  match classElem with
  | .vScalar (.sStr s) => .ok (.sStr (mkDefName s cnt))
  | _ => .error (.typeError "unsupported operand type(s) for +")

/-- One iteration of the `_build_hidden_layers` loop on a (normalized)
layer-configuration entry, for the network whose `id(self)` is `nid`:
resolve the class, synthesize the default name, pop the `name` override,
qualify the internal name for recurrent layers, pop the `keep_prob` override
for dense and recurrent layers, instantiate the layer (fresh parameter
values, modelled as `0`) and record it in the ordered layer stack. -/
def buildEntry (nid : Nat) (st : BuildState) : CfgEntry → Except PyError BuildState
  | .ceTuple [classElem, nUnits, .vDict kwargs0] =>
    match get_layer_class classElem with
    | .error e => .error e
    | .ok layer_class =>
      let cnt := countsGet st.counts classElem
      let counts1 := countsSet st.counts classElem cnt
      match defaultNameOf classElem cnt with
      | .error e => .error e
      | .ok defName =>
        let (nameOverride, kwargs1) := dictPop kwargs0 "name"
        let layer_name := nameOverride.getD defName
        if isSubDenseLayer layer_class || isSubAbstractRNN layer_class then
          match
            (if isSubAbstractRNN layer_class then
              match layer_name with
              | .sStr s => Except.ok (dictSet kwargs1 "name" (.sStr (s ++ "_" ++ decStr nid)))
              | _ => Except.error (.typeError "unsupported operand type(s) for +")
            else
              Except.ok kwargs1 : Except PyError (List (String × PyScalar)))
          with
          | .error e => .error e
          | .ok kwargs2 =>
            let (kpOverride, kwargs3) := dictPop kwargs2 "keep_prob"
            let kp : KeepProbArg :=
              match kpOverride with
              | some v => .explicitArg v
              | none => .holderDefault
            let layer : Layer :=
              { cls := layer_class, n_units := nUnits, keep_prob := some kp,
                kwargs := kwargs3, values := 0 }
            .ok { layers := odInsert st.layers layer_name layer,
                  counts := countsSet counts1 classElem (cnt + 1) }
        else
          let layer : Layer :=
            { cls := layer_class, n_units := nUnits, keep_prob := none,
              kwargs := kwargs1, values := 0 }
          .ok { layers := odInsert st.layers layer_name layer,
                counts := countsSet counts1 classElem (cnt + 1) }
  | _ => .error (.valueError "cannot unpack layer configuration")

/-- The `for name, n_units, kwargs in self.layers_config` loop of
`_build_hidden_layers`. -/
def buildEntriesFrom (nid : Nat) (st : BuildState) : List CfgEntry → Except PyError BuildState
  | [] => .ok st
  | e :: rest =>
    match buildEntry nid st e with
    | .error err => .error err
    | .ok st1 => buildEntriesFrom nid st1 rest

/-- `DeepNeuralNetwork._build_hidden_layers`, starting from an empty layer
stack and counter dict. -/
def buildHiddenLayers (nid : Nat) (entries : List CfgEntry) :
    Except PyError (List (PyScalar × Layer)) :=
  (buildEntriesFrom nid ⟨[], []⟩ entries).map (·.layers)

/-- The `_holders` placeholders, recorded by their shapes: the `input`
placeholder has shape `input_shape` and the `targets` placeholder has shape
`[input_shape[0], n_targets]` (the scalar `keep_prob` placeholder carries no
shape data). -/
structure Holders where
  input : List (Option Int)
  targets : List (Option Int)
deriving DecidableEq, Repr

/-- `DeepNeuralNetwork._build_placeholders`: `self.input_shape[0]` raises an
`IndexError` on an empty shape. -/
def build_placeholders (shape : InputShapeVal) (n_targets : Int) :
    Except PyError Holders :=
  match shape.dims? with
  | none => .error (.typeError "'input_shape' has no dimensions")
  | some dims =>
    match dims.head? with
    | none => .error (.indexError "tuple index out of range")
    | some d0 => .ok { input := dims, targets := [d0, some n_targets] }

/-- A constructed `DeepNeuralNetwork` instance: its `_init_arguments` dict
(as left by `_validate_args`), its placeholders, its `_layers` ordered dict
and its Python object identity `id(self)`. -/
structure Network where
  init_args : InitArgs
  holders : Holders
  layers : List (PyScalar × Layer)
  net_id : Nat
deriving DecidableEq, Repr

/-- The `architecture` property: an ordered mapping from layer name to the
layer's `configuration`, derived from the live layer stack. -/
def Network.architecture (net : Network) : List (PyScalar × LayerConfig) :=
  net.layers.map (fun p => (p.1, p.2.configuration))

/-- `get_values`: a mapping from layer name to the layer's current parameter
values. -/
def Network.get_values (net : Network) : List (PyScalar × Int) :=
  net.layers.map (fun p => (p.1, p.2.values))

/-- Outcome of `DeepNeuralNetwork.__init__`: the caller-visible state of the
initialization arguments after the call (in-place mutations included) and
either the constructed instance or the exception raised. -/
structure InitOutcome where
  args_after : InitArgs
  result : Except PyError Network
deriving DecidableEq, Repr

/-- `DeepNeuralNetwork.__init__` for a fresh instance with identity `nid`:
record the arguments, run `_validate_args`, then build the placeholders and
the hidden layers.  The abstract `_build_readout_layer` / `_build_readouts`
/ `_build_training_function` hooks and the tensorflow session are
subclass- and engine-specific and add nothing to the recorded state. -/
def initDNN (a : InitArgs) (nid : Nat) : InitOutcome :=
  let (a2, err) := validate_args a
  match err with
  | some e => ⟨a2, .error e⟩
  | none =>
    match build_placeholders a2.input_shape a2.n_targets with
    | .error e => ⟨a2, .error e⟩
    | .ok holders =>
      match a2.layers_config with
      | .lcOther v => ⟨a2, .error (raise_type_error "layers_config" ["list"] v.typeName)⟩
      | .lcList entries =>
        match buildHiddenLayers nid entries with
        | .error e => ⟨a2, .error e⟩
        | .ok layers =>
          ⟨a2, .ok { init_args := a2, holders := holders, layers := layers, net_id := nid }⟩

/-- The persisted model dump written by `save_model`: the `__init__`
arguments, the `__class__` path, the `architecture` descriptor and the
per-layer parameter `values` (`__rebuild_init__` is `None` by default). -/
structure ModelDump where
  dump_init : InitArgs
  dump_class : String
  dump_architecture : List (PyScalar × LayerConfig)
  dump_values : List (PyScalar × Int)
deriving DecidableEq, Repr

/-- The keys of the `_init_arguments` dict recorded by `__init__`. -/
def init_argument_keys : List String :=
  ["input_shape", "n_targets", "layers_config", "norm_params"]

/-- `DeepNeuralNetwork.save_model`: `_adjust_init_arguments_for_saving`
returns `self.init_arguments, None`, and `init_arguments` is neither an
attribute of the class nor a key of `_init_arguments`, so the `__getattr__`
fallback raises an `AttributeError` before anything is serialized. -/
def save_model (net : Network) : Except PyError ModelDump :=
  if init_argument_keys.contains "init_arguments" then
    .ok { dump_init := net.init_args,
          dump_class := "neural_networks.core._dnn.DeepNeuralNetwork",
          dump_architecture := net.architecture,
          dump_values := net.get_values }
  else
    .error (.attributeError
      ("'DeepNeuralNetwork' object has no attribute 'init_arguments' "
        ++ "nor initialization argument of such name"))

/-- The `for name, layer in model._layers.items(): layer.set_values(
config['values'][name], model.session)` loop of `load_dumped_model`: layers
are mutated one at a time, and a name missing from the dumped values raises
a `KeyError` leaving the layers already visited mutated. -/
def setValuesLoop (vals : List (PyScalar × Int)) :
    List (PyScalar × Layer) → List (PyScalar × Layer) × Option PyError
  | [] => ([], none)
  | (name, layer) :: rest =>
    match vals.lookup name with
    | none => ((name, layer) :: rest, some (.keyError "values"))
    | some v =>
        let (rest2, err) := setValuesLoop vals rest
        ((name, { layer with values := v }) :: rest2, err)

/-- `load_dumped_model(filename, model=model)` with an existing instance:
compare the instance's current architecture with the dumped one (an
`OrderedDict` equality, hence order-sensitive); on mismatch raise
`TypeError("Invalid network architecture.")` before touching any layer, on
match restore every layer's values from the dump. -/
def load_dumped_model_into (dump : ModelDump) (net : Network) :
    Network × Option PyError :=
  if net.architecture = dump.dump_architecture then
    let (layers2, err) := setValuesLoop dump.dump_values net.layers
    ({ net with layers := layers2 }, err)
  else
    (net, some (.typeError "Invalid network architecture."))

/-- `DeepNeuralNetwork.restore_model`: delegates to `load_dumped_model` with
`model=self`. -/
def restore_model (net : Network) (dump : ModelDump) : Network × Option PyError :=
  load_dumped_model_into dump net

/-- `load_dumped_model(filename)` with `model=None`.  Modelled from the spec
for the reconstruction step: `instanciate` (from `neural_networks.utils`,
not part of the source tree) rebuilds an instance of the dumped class from
the dumped `__init__` arguments (and `__rebuild_init__` hints, `None` here).
The architecture check and the value restoration then proceed as in the
in-place variant, and the fresh instance is returned. -/
def load_dumped_model_new (dump : ModelDump) (freshId : Nat) :
    Except PyError Network :=
  match (initDNN dump.dump_init freshId).result with
  | .error e => .error e
  | .ok model =>
    if model.architecture = dump.dump_architecture then
      match setValuesLoop dump.dump_values model.layers with
      | (_, some e) => .error e
      | (layers2, none) => .ok { model with layers := layers2 }
    else
      .error (.typeError "Invalid network architecture.")

/-- The class-or-name strings of a list of layer-configuration entries
(defaulting to `""` on entries of another shape). -/
def entryKinds (entries : List CfgEntry) : List String :=
  entries.map fun e =>
    match e with
    | .ceTuple (.vScalar (.sStr k) :: _) => k
    | _ => ""

/-- Increment a per-kind counter at one kind. -/
def bumpCounts (c : String → Nat) (k : String) : String → Nat :=
  fun k2 => if k2 = k then c k + 1 else c k2

/-- The default layer names `<kind>_<index>` generated for a list of kinds,
starting from a given per-kind counter state. -/
def genNames (c : String → Nat) : List String → List String
  | [] => []
  | k :: rest => mkDefName k (c k) :: genNames (bumpCounts c k) rest

/-- The per-kind counter of a build state, restricted to string kinds. -/
def countsF (st : BuildState) : String → Nat :=
  fun k => countsGet st.counts (.vScalar (.sStr k))

/-- The concrete scenario of the specification: `input_shape=(None, 40)`,
`n_targets=5`, `layers_config=[("dense_layer", 32, {}), ("dense_layer", 16, {})]`. -/
def exArgs : InitArgs :=
  { input_shape := .isTuple [none, some 40], n_targets := 5,
    layers_config := .lcList
      [ .ceTuple [.vScalar (.sStr "dense_layer"), .vScalar (.sInt 32), .vDict []],
        .ceTuple [.vScalar (.sStr "dense_layer"), .vScalar (.sInt 16), .vDict []] ],
    norm_params := none }

/-- The network built from `exArgs` (with object identity 1). -/
def exNet : Network :=
  ((initDNN exArgs 1).result).toOption.getD ⟨exArgs, ⟨[], []⟩, [], 0⟩

/-- Initialization arguments forming a counterexample to unconditional layer
name freshness: the first layer's explicit `name` keyword collides with the
default name later generated for the second layer. -/
def nameClashArgs : InitArgs :=
  { input_shape := .isTuple [none, some 40], n_targets := 5,
    layers_config := .lcList
      [ .ceTuple [.vScalar (.sStr "dense_layer"), .vScalar (.sInt 32),
          .vDict [("name", .sStr "dense_layer_1")]],
        .ceTuple [.vScalar (.sStr "dense_layer"), .vScalar (.sInt 16), .vDict []] ],
    norm_params := none }

/-- Initialization arguments with an empty (zero-length) `input_shape` tuple
and otherwise valid arguments. -/
def emptyShapeArgs : InitArgs :=
  { input_shape := .isTuple [], n_targets := 5,
    layers_config := .lcList
      [ .ceTuple [.vScalar (.sStr "dense_layer"), .vScalar (.sInt 32), .vDict []] ],
    norm_params := none }

/-- Initialization arguments whose first `layers_config` entry is a
two-element tuple (subject to in-place normalization) and whose second entry
is a four-element tuple (invalid). -/
def mutationArgs : InitArgs :=
  { input_shape := .isTuple [none, some 40], n_targets := 5,
    layers_config := .lcList
      [ .ceTuple [.vScalar (.sStr "dense_layer"), .vScalar (.sInt 32)],
        .ceTuple [.vScalar (.sStr "dense_layer"), .vScalar (.sInt 16),
          .vDict [], .vDict []] ],
    norm_params := none }

/-- Valid initialization arguments parametrized by `n_targets` and an
optional `norm_params` array, for the normalization-parameter checks. -/
def normArgs (n : Int) (arr : Option NdArray) : InitArgs :=
  { input_shape := .isTuple [none, some 40], n_targets := n,
    layers_config := .lcList
      [ .ceTuple [.vScalar (.sStr "dense_layer"), .vScalar (.sInt 32), .vDict []] ],
    norm_params := arr }

/-- An entry in the normalized form produced by `_validate_args`, whose kind
is a registered string name and whose keyword arguments carry no explicit
`name` override. -/
def EntryWF (e : CfgEntry) : Prop :=
  ∃ k u kw, e = CfgEntry.ceTuple [.vScalar (.sStr k), u, .vDict kw] ∧
    (reference_dict.lookup k).isSome = true ∧ kw.lookup "name" = none

/-- Invariant of the `_build_hidden_layers` loop state: every recorded layer
name is a generated default name `<kind>_<i>` whose index is below the
current counter of its kind. -/
def StInv (st : BuildState) : Prop :=
  ∀ p ∈ st.layers, ∃ k i, (reference_dict.lookup k).isSome = true ∧
    i < countsF st k ∧ p.1 = PyScalar.sStr (mkDefName k i)

/-- `True` exactly on tuple entries (`isinstance(config, tuple)`). -/
def CfgEntry.isTupleEntry : CfgEntry → Bool
  | .ceTuple _ => true
  | _ => false

/-- The number of entries of a `layers_config` value. -/
def lcLength : LayersConfigVal → Nat
  | .lcList es => es.length
  | .lcOther _ => 0

/-- A network with an empty layer stack (used as a restoration target). -/
def emptyNet : Network := ⟨exArgs, ⟨[], []⟩, [], 0⟩

/-- A dump recording a one-layer architecture, incompatible with `emptyNet`. -/
def mismatchDump : ModelDump :=
  { dump_init := exArgs,
    dump_class := "neural_networks.core._dnn.DeepNeuralNetwork",
    dump_architecture := [(.sStr "dense_layer_0",
      ⟨.DenseLayer, .vScalar (.sInt 32), some .holderDefault, []⟩)],
    dump_values := [(.sStr "dense_layer_0", 0)] }

theorem digitChar_toNat_sub {m : Nat} (h : m < 10) :
    (Nat.digitChar m).toNat - 48 = m := by
  interval_cases m <;> rfl

theorem decParse_append (l : List Char) (c : Char) :
    decParse (l ++ [c]) = 10 * decParse l + (c.toNat - 48) := by
  simp [decParse, List.foldl_append]

theorem decParse_decCharsGo :
    ∀ fuel n, n < fuel → decParse (decCharsGo fuel n) = n := by
  intro fuel
  induction fuel with
  | zero => intro n h; omega
  | succ f ih =>
    intro n h
    by_cases h10 : n < 10
    · simpa [decCharsGo, h10, decParse] using digitChar_toNat_sub h10
    · have hdiv : n / 10 < n := Nat.div_lt_self (by omega) (by omega)
      have hrec : n / 10 < f := by omega
      rw [decCharsGo]
      simp only [if_neg h10]
      rw [decParse_append, ih _ hrec, digitChar_toNat_sub (Nat.mod_lt n (by omega))]
      omega

theorem decChars_inj {a b : Nat} (h : decChars a = decChars b) : a = b := by
  have ha := decParse_decCharsGo (a + 1) a (by omega)
  have hb := decParse_decCharsGo (b + 1) b (by omega)
  unfold decChars at h
  rw [h] at ha
  rw [ha] at hb
  omega

theorem lookup_kinds {s : String} (h : (reference_dict.lookup s).isSome = true) :
    s = "dense_layer" ∨ s = "rnn_stack" ∨ s = "bi_rnn_stack" ∨ s = "lowpass_filter" := by
  by_contra hc
  push_neg at hc
  obtain ⟨h1, h2, h3, h4⟩ := hc
  simp only [reference_dict, List.lookup] at h
  rw [beq_eq_false_iff_ne.mpr h1, beq_eq_false_iff_ne.mpr h2,
    beq_eq_false_iff_ne.mpr h3, beq_eq_false_iff_ne.mpr h4] at h
  simp at h

theorem cons_append_ne {c1 c2 : Char} (hne : c1 ≠ c2) (t1 s1 t2 s2 : List Char) :
    c1 :: (t1 ++ s1) ≠ c2 :: (t2 ++ s2) := by
  intro h
  injection h with h1 _
  exact hne h1

theorem mkDefName_data (k : String) (i : Nat) :
    (mkDefName k i).data = k.data ++ ('_' :: decChars i) := by
  show (k.data ++ "_".data) ++ (decStr i).data = k.data ++ ('_' :: decChars i)
  simp [decStr]

theorem mkDefName_inj {k1 k2 : String}
    (h1 : (reference_dict.lookup k1).isSome = true)
    (h2 : (reference_dict.lookup k2).isSome = true)
    {i1 i2 : Nat} (h : mkDefName k1 i1 = mkDefName k2 i2) : k1 = k2 ∧ i1 = i2 := by
  have hd : k1.data ++ ('_' :: decChars i1) = k2.data ++ ('_' :: decChars i2) := by
    rw [← mkDefName_data, ← mkDefName_data, h]
  rcases lookup_kinds h1 with rfl | rfl | rfl | rfl <;>
    rcases lookup_kinds h2 with rfl | rfl | rfl | rfl <;>
      first
        | exact ⟨rfl, decChars_inj (by simpa using List.append_cancel_left hd)⟩
        | exact absurd hd (cons_append_ne (by decide) _ _ _ _)

theorem countsGet_set (l : List (PyVal1 × Nat)) (k k2 : PyVal1) (v : Nat) :
    countsGet (countsSet l k v) k2 = if k2 = k then v else countsGet l k2 := by
  induction l with
  | nil =>
    by_cases h : k2 = k
    · subst h; simp [countsSet, countsGet, List.lookup]
    · simp [countsSet, countsGet, List.lookup, beq_eq_false_iff_ne.mpr h, h]
  | cons p rest ih =>
    obtain ⟨p1, p2⟩ := p
    by_cases hp : p1 = k
    · subst hp
      simp only [countsSet, if_pos rfl]
      by_cases h2 : k2 = p1
      · subst h2; simp [countsGet, List.lookup]
      · simp [countsGet, List.lookup, beq_eq_false_iff_ne.mpr h2, h2]
    · simp only [countsSet]
      rw [if_neg hp]
      by_cases h2 : k2 = p1
      · subst h2
        have hnk : ¬k2 = k := fun hh => hp hh
        simp [countsGet, List.lookup, hnk]
      · simp only [countsGet, List.lookup, beq_eq_false_iff_ne.mpr h2]
        exact ih

theorem odInsert_fresh {l : List (PyScalar × Layer)} {k : PyScalar} {v : Layer}
    (h : ∀ p ∈ l, p.1 ≠ k) : odInsert l k v = l ++ [(k, v)] := by
  induction l with
  | nil => rfl
  | cons p rest ih =>
    simp only [odInsert]
    rw [if_neg (h p (by simp))]
    simp [ih fun q hq => h q (by simp [hq])]

theorem genNames_length (c : String → Nat) (ks : List String) :
    (genNames c ks).length = ks.length := by
  induction ks generalizing c with
  | nil => simp [genNames]
  | cons k rest ih => simp [genNames, ih]

theorem genNames_mem {name : String} : ∀ {ks : List String} {c : String → Nat},
    name ∈ genNames c ks → ∃ k ∈ ks, ∃ i, c k ≤ i ∧ name = mkDefName k i := by
  intro ks
  induction ks with
  | nil => intro c h; simp [genNames] at h
  | cons k rest ih =>
    intro c h
    simp only [genNames, List.mem_cons] at h
    rcases h with h | h
    · exact ⟨k, by simp, c k, le_refl _, h⟩
    · obtain ⟨k2, hk2, i, hi, he⟩ := ih h
      refine ⟨k2, by simp [hk2], i, ?_, he⟩
      by_cases hkk : k2 = k
      · subst hkk
        simp [bumpCounts] at hi
        omega
      · simpa [bumpCounts, hkk] using hi

theorem genNames_nodup : ∀ (ks : List String) (c : String → Nat),
    (∀ k ∈ ks, (reference_dict.lookup k).isSome = true) → (genNames c ks).Nodup := by
  intro ks
  induction ks with
  | nil => intro c _; simp [genNames]
  | cons k rest ih =>
    intro c hks
    simp only [genNames, List.nodup_cons]
    refine ⟨?_, ih _ fun k2 h2 => hks k2 (by simp [h2])⟩
    intro hmem
    obtain ⟨k2, hk2, i, hi, he⟩ := genNames_mem hmem
    obtain ⟨rfl, hii⟩ := mkDefName_inj (hks k (by simp)) (hks k2 (by simp [hk2])) he
    simp [bumpCounts] at hi
    omega

theorem lookup_odInsert (l : List (PyScalar × Layer)) (k : PyScalar) (v : Layer) :
    (odInsert l k v).lookup k = some v := by
  induction l with
  | nil => simp [odInsert, List.lookup]
  | cons p rest ih =>
    by_cases hp : p.1 = k
    · simp [odInsert, hp, List.lookup]
    · simp only [odInsert]
      rw [if_neg hp]
      simp only [List.lookup, beq_eq_false_iff_ne.mpr (Ne.symm hp)]
      exact ih

theorem lookup_filter_ne (d : List (String × PyScalar)) (k1 k2 : String)
    (hne : k2 ≠ k1) :
    (d.filter (fun p => p.1 ≠ k1)).lookup k2 = d.lookup k2 := by
  induction d with
  | nil => simp
  | cons p rest ih =>
    by_cases hp : p.1 = k1
    · rw [List.filter_cons_of_neg (by simp [hp])]
      rw [ih]
      have hbeq : (k2 == p.1) = false := beq_eq_false_iff_ne.mpr (by rw [hp]; exact hne)
      simp only [List.lookup, hbeq]
    · rw [List.filter_cons_of_pos (by simp [hp])]
      simp only [List.lookup]
      cases hbeq : (k2 == p.1)
      · exact ih
      · rfl

theorem lookup_dictSet_self (d : List (String × PyScalar)) (k : String) (v : PyScalar) :
    (dictSet d k v).lookup k = some v := by
  induction d with
  | nil => simp [dictSet, List.lookup]
  | cons p rest ih =>
    by_cases hp : p.1 = k
    · simp [dictSet, hp, List.lookup]
    · simp only [dictSet]
      rw [if_neg hp]
      simp only [List.lookup, beq_eq_false_iff_ne.mpr (Ne.symm hp)]
      exact ih

theorem lookup_dictSet_other (d : List (String × PyScalar)) (k k2 : String)
    (v : PyScalar) (hne : k2 ≠ k) :
    (dictSet d k v).lookup k2 = d.lookup k2 := by
  induction d with
  | nil => simp [dictSet, List.lookup, beq_eq_false_iff_ne.mpr hne]
  | cons p rest ih =>
    by_cases hp : p.1 = k
    · simp only [dictSet]
      rw [if_pos hp]
      have hb1 : (k2 == k) = false := beq_eq_false_iff_ne.mpr hne
      have hb2 : (k2 == p.1) = false := beq_eq_false_iff_ne.mpr (by rw [hp]; exact hne)
      simp only [List.lookup, hb1, hb2]
    · simp only [dictSet]
      rw [if_neg hp]
      simp only [List.lookup]
      cases hbeq : (k2 == p.1)
      · exact ih
      · rfl

theorem buildEntry_wf (nid : Nat) (st : BuildState) {k : String} {c : LayerClassT}
    (hc : reference_dict.lookup k = some c) (u : PyVal1) {kw : List (String × PyScalar)}
    (hname : kw.lookup "name" = none) :
    ∃ L : Layer, buildEntry nid st (.ceTuple [.vScalar (.sStr k), u, .vDict kw]) =
      .ok { layers := odInsert st.layers (.sStr (mkDefName k (countsF st k))) L,
            counts := countsSet (countsSet st.counts (.vScalar (.sStr k)) (countsF st k))
                        (.vScalar (.sStr k)) (countsF st k + 1) } := by
  simp only [buildEntry, get_layer_class, get_object, hc, defaultNameOf, dictPop, hname,
    Option.getD, countsF]
  by_cases hd : (isSubDenseLayer c || isSubAbstractRNN c) = true
  · rw [if_pos hd]
    by_cases hr : isSubAbstractRNN c = true
    · rw [if_pos hr]
      exact ⟨_, rfl⟩
    · rw [if_neg hr]
      exact ⟨_, rfl⟩
  · rw [if_neg hd]
    exact ⟨_, rfl⟩

theorem countsF_step (st : BuildState) (k : String) (L : List (PyScalar × Layer)) :
    countsF { layers := L,
              counts := countsSet (countsSet st.counts (.vScalar (.sStr k)) (countsF st k))
                          (.vScalar (.sStr k)) (countsF st k + 1) }
      = bumpCounts (countsF st) k := by
  funext k2
  simp only [countsF, bumpCounts]
  rw [countsGet_set]
  by_cases h : k2 = k
  · subst h; simp
  · have hne : (PyVal1.vScalar (.sStr k2)) ≠ (PyVal1.vScalar (.sStr k)) := by simp [h]
    rw [if_neg hne, countsGet_set, if_neg hne, if_neg h]

theorem stinv_fresh {st : BuildState} (hinv : StInv st) {k : String}
    (hreg : (reference_dict.lookup k).isSome = true) :
    ∀ p ∈ st.layers, p.1 ≠ PyScalar.sStr (mkDefName k (countsF st k)) := by
  intro p hp heq
  obtain ⟨k2, i, hreg2, hi, hn⟩ := hinv p hp
  rw [hn] at heq
  have hmk : mkDefName k2 i = mkDefName k (countsF st k) := by injection heq
  obtain ⟨rfl, rfl⟩ := mkDefName_inj hreg2 hreg hmk
  omega

theorem stinv_step {st : BuildState} (hinv : StInv st) {k : String}
    (hreg : (reference_dict.lookup k).isSome = true) (L : Layer) :
    StInv { layers := odInsert st.layers (.sStr (mkDefName k (countsF st k))) L,
            counts := countsSet (countsSet st.counts (.vScalar (.sStr k)) (countsF st k))
                        (.vScalar (.sStr k)) (countsF st k + 1) } := by
  intro p hp
  have hcf := countsF_step st k
    (odInsert st.layers (.sStr (mkDefName k (countsF st k))) L)
  simp only at hp
  rw [odInsert_fresh (stinv_fresh hinv hreg)] at hp
  rcases List.mem_append.mp hp with hp | hp
  · obtain ⟨k2, i, h1, h2, h3⟩ := hinv p hp
    refine ⟨k2, i, h1, ?_, h3⟩
    rw [hcf]
    unfold bumpCounts
    by_cases hk : k2 = k
    · subst hk; simp; omega
    · simpa [hk] using h2
  · simp only [List.mem_singleton] at hp
    subst hp
    refine ⟨k, countsF st k, hreg, ?_, rfl⟩
    rw [hcf]
    simp [bumpCounts]

theorem buildEntries_names :
    ∀ (entries : List CfgEntry) (nid : Nat) (st out : BuildState),
    (∀ e ∈ entries, EntryWF e) → StInv st →
    buildEntriesFrom nid st entries = .ok out →
    out.layers.map Prod.fst =
      st.layers.map Prod.fst
        ++ (genNames (countsF st) (entryKinds entries)).map PyScalar.sStr := by
  intro entries
  induction entries with
  | nil =>
    intro nid st out _ _ hrun
    simp only [buildEntriesFrom] at hrun
    injection hrun with h
    subst h
    simp [entryKinds, genNames]
  | cons e rest ih =>
    intro nid st out hwf hinv hrun
    obtain ⟨k, u, kw, rfl, hreg, hname⟩ := hwf e (by simp)
    obtain ⟨c, hc⟩ := Option.isSome_iff_exists.mp hreg
    obtain ⟨L, hL⟩ := buildEntry_wf nid st hc u hname
    simp only [buildEntriesFrom, hL] at hrun
    have hnext := ih nid _ out (fun e2 he2 => hwf e2 (by simp [he2]))
      (stinv_step hinv hreg L) hrun
    rw [hnext]
    simp only [countsF_step]
    rw [odInsert_fresh (stinv_fresh hinv hreg)]
    simp [entryKinds, genNames, List.map_append]

theorem validateEntries_shape :
    ∀ entries : List CfgEntry,
    (∀ e ∈ entries, ∃ l, e = CfgEntry.ceTuple l ∧ l.length = 3) →
    (validateEntriesFrom entries).1 = entries := by
  intro entries
  induction entries with
  | nil => intro _; rfl
  | cons e rest ih =>
    intro h
    obtain ⟨l, rfl, hl⟩ := h e (by simp)
    simp only [validateEntriesFrom]
    rw [if_neg (by omega), if_pos hl]
    cases hchk : checkEntryElems l with
    | some err => simp
    | none =>
      rcases hvr : validateEntriesFrom rest with ⟨r, err⟩
      have hr := ih (fun e2 he2 => h e2 (by simp [he2]))
      rw [hvr] at hr
      simp only at hr
      simp [hr]

theorem validate_args_ok_config {a a2 : InitArgs} {entries : List CfgEntry}
    (hlc : a.layers_config = .lcList entries)
    (hv : validate_args a = (a2, none)) :
    a2.layers_config = .lcList (validateEntriesFrom entries).1 := by
  rcases hvE : validateEntriesFrom entries with ⟨e2, errE⟩
  cases hci : checkInputShape a.input_shape with
  | some e =>
    simp only [validate_args, hci] at hv
    simp at hv
  | none =>
    cases errE with
    | some e =>
      simp only [validate_args, hci, hlc, hvE] at hv
      simp at hv
    | none =>
      simp only [validate_args, hci, hlc, hvE] at hv
      split at hv
      · simp at hv
      · cases hnp : a.norm_params with
        | none =>
          simp only [hnp] at hv
          injection hv with hx hy
          rw [← hx]
        | some arr =>
          simp only [hnp] at hv
          split at hv
          · injection hv with hx hy
            rw [← hx]
          · simp at hv

theorem initDNN_ok_build {a : InitArgs} {nid : Nat} {net : Network}
    {entries : List CfgEntry}
    (hlc : a.layers_config = .lcList entries)
    (hshape : ∀ e ∈ entries, ∃ l, e = CfgEntry.ceTuple l ∧ l.length = 3)
    (hok : (initDNN a nid).result = .ok net) :
    ∃ out : BuildState, buildEntriesFrom nid ⟨[], []⟩ entries = .ok out ∧
      net.layers = out.layers := by
  have hpres := validateEntries_shape entries hshape
  rcases hv : validate_args a with ⟨a2, err⟩
  simp only [initDNN, hv] at hok
  cases err with
  | some e => simp at hok
  | none =>
    have hcfg : a2.layers_config = .lcList entries := by
      rw [validate_args_ok_config hlc hv, hpres]
    cases hbp : build_placeholders a2.input_shape a2.n_targets with
    | error e => simp [hbp] at hok
    | ok holders =>
      cases hbe : buildEntriesFrom nid ⟨[], []⟩ entries with
      | error err2 =>
        simp only [hbp, hcfg, buildHiddenLayers, hbe, Except.map] at hok
        simp at hok
      | ok out =>
        simp only [hbp, hcfg, buildHiddenLayers, hbe, Except.map] at hok
        refine ⟨out, rfl, ?_⟩
        injection hok with hnet
        rw [← hnet]

/-- C1: the claimed save/load round trip can never begin: `save_model` reads
`self.init_arguments`, which is neither an attribute of `DeepNeuralNetwork`
nor a key of the `_init_arguments` dict, so the `__getattr__` fallback
raises an `AttributeError` on every instance — including the successfully
constructed two-dense-layer instance exhibited by the first conjunct —
before anything is written. -/
theorem save_model_attribute_error :
    ((initDNN exArgs 1).result = .ok exNet)
      ∧ ∀ net : Network, save_model net = .error (.attributeError
          ("'DeepNeuralNetwork' object has no attribute 'init_arguments' "
            ++ "nor initialization argument of such name")) :=
  ⟨rfl, fun _ => rfl⟩

/-- C2: restoring from a dump whose recorded architecture is not exactly
equal to the instance's current architecture raises
`TypeError("Invalid network architecture.")` and returns the instance
unchanged — in particular `get_values` is unchanged, so no layer parameter
was mutated. -/
theorem restore_mismatch_all_or_nothing (net : Network) (dump : ModelDump)
    (hne : net.architecture ≠ dump.dump_architecture) :
    restore_model net dump
        = (net, some (.typeError "Invalid network architecture."))
      ∧ (restore_model net dump).1.get_values = net.get_values := by
  have h : restore_model net dump
      = (net, some (.typeError "Invalid network architecture.")) := by
    unfold restore_model load_dumped_model_into
    rw [if_neg hne]
  exact ⟨h, by rw [h]⟩

/-- Witness for the C2 theorem: an empty-stack network against a one-layer
dump. -/
theorem restore_mismatch_all_or_nothing_witness :
    restore_model emptyNet mismatchDump
        = (emptyNet, some (.typeError "Invalid network architecture."))
      ∧ (restore_model emptyNet mismatchDump).1.get_values = emptyNet.get_values :=
  restore_mismatch_all_or_nothing emptyNet mismatchDump (by decide)

/-- C3: a zero-length `input_shape` is not rejected by `_validate_args` (the
code only tests `len(input_shape) == 1`, although its own error message
demands at least two dimensions); the constructor instead fails later,
inside `_build_placeholders`, with an `IndexError` on `input_shape[0]`. -/
theorem empty_input_shape_passes_validation :
    (validate_args emptyShapeArgs).2 = none
      ∧ (initDNN emptyShapeArgs 0).result
          = .error (.indexError "tuple index out of range") :=
  ⟨rfl, rfl⟩

/-- C5: during validation of `layers_config`, a two-element tuple entry is
normalized by appending an empty keyword dict (its in-place replacement is
the head of the resulting list, whether or not the per-element checks then
fail), a tuple entry of length other than 2 or 3 raises the tuple-length
`TypeError`, and a non-tuple entry raises the elements-should-be-tuples
`TypeError`. -/
theorem layers_config_normalization (elems : List PyVal1) (rest : List CfgEntry) :
    (elems.length = 2 →
      (validateEntriesFrom (CfgEntry.ceTuple elems :: rest)).1.head?
        = some (CfgEntry.ceTuple (elems ++ [.vDict []])))
    ∧ (elems.length ≠ 2 → elems.length ≠ 3 →
        validateEntriesFrom (CfgEntry.ceTuple elems :: rest)
          = (CfgEntry.ceTuple elems :: rest,
             some (.typeError "Wrong 'layers_config' element tuple length.")))
    ∧ (∀ e : CfgEntry, e.isTupleEntry = false →
        validateEntriesFrom (e :: rest)
          = (e :: rest,
             some (.typeError "'layers_config' elements should be tuples."))) := by
  refine ⟨?_, ?_, ?_⟩
  · intro h2
    simp only [validateEntriesFrom]
    rw [if_pos h2]
    cases hchk : checkEntryElems (elems ++ [.vDict []]) <;> simp
  · intro h2 h3
    simp only [validateEntriesFrom]
    rw [if_neg h2, if_neg h3]
  · intro e he
    cases e with
    | ceTuple l => simp [CfgEntry.isTupleEntry] at he
    | ceScalar s => rfl
    | ceList l => rfl
    | ceDict d => rfl

/-- Witness for the C5 theorem: a two-element dense spec is normalized, a
four-element tuple and a bare string entry are rejected. -/
theorem layers_config_normalization_witness :
    ((validateEntriesFrom
        [CfgEntry.ceTuple [.vScalar (.sStr "dense_layer"), .vScalar (.sInt 32)]]).1.head?
      = some (CfgEntry.ceTuple
          [.vScalar (.sStr "dense_layer"), .vScalar (.sInt 32), .vDict []]))
    ∧ (validateEntriesFrom
          [CfgEntry.ceTuple [.vScalar (.sStr "dense_layer"), .vScalar (.sInt 16),
            .vDict [], .vDict []]]
        = ([CfgEntry.ceTuple [.vScalar (.sStr "dense_layer"), .vScalar (.sInt 16),
            .vDict [], .vDict []]],
           some (.typeError "Wrong 'layers_config' element tuple length.")))
    ∧ (validateEntriesFrom [CfgEntry.ceScalar (.sStr "dense_layer")]
        = ([CfgEntry.ceScalar (.sStr "dense_layer")],
           some (.typeError "'layers_config' elements should be tuples."))) :=
  ⟨(layers_config_normalization
      [.vScalar (.sStr "dense_layer"), .vScalar (.sInt 32)] []).1 rfl,
   (layers_config_normalization
      [.vScalar (.sStr "dense_layer"), .vScalar (.sInt 16), .vDict [], .vDict []] []).2.1
      (by decide) (by decide),
   (layers_config_normalization [] []).2.2 (CfgEntry.ceScalar (.sStr "dense_layer")) rfl⟩

/-- C6 (counterexample): on `mutationArgs` — a two-element first entry and
an invalid four-element second entry — construction fails during
validation, yet the caller-supplied `layers_config` has been mutated: its
first entry now carries the appended empty keyword dict. -/
theorem validation_mutates_caller_list :
    ((initDNN mutationArgs 0).result
        = .error (.typeError "Wrong 'layers_config' element tuple length."))
      ∧ (initDNN mutationArgs 0).args_after.layers_config
          ≠ mutationArgs.layers_config
      ∧ (initDNN mutationArgs 0).args_after.layers_config
          = .lcList
              [ .ceTuple [.vScalar (.sStr "dense_layer"), .vScalar (.sInt 32), .vDict []],
                .ceTuple [.vScalar (.sStr "dense_layer"), .vScalar (.sInt 16),
                  .vDict [], .vDict []] ] := by
  refine ⟨rfl, ?_, rfl⟩
  decide

/-- C6 (amended): a validation failure still aborts `__init__` before any
placeholder or layer is built — the call's outcome is exactly the
validation error and the recorded argument state is exactly what
`_validate_args` left (which may include two-element entries of the
caller's `layers_config` already normalized in place, as the
counterexample shows). -/
theorem init_fails_before_building (a : InitArgs) (nid : Nat) (e : PyError)
    (hfail : (validate_args a).2 = some e) :
    initDNN a nid = ⟨(validate_args a).1, .error e⟩ := by
  rcases hv : validate_args a with ⟨a2, err⟩
  rw [hv] at hfail
  simp only at hfail
  subst hfail
  unfold initDNN
  rw [hv]

/-- Witness for the amended C6 theorem at `mutationArgs`. -/
theorem init_fails_before_building_witness :
    initDNN mutationArgs 0
      = ⟨(validate_args mutationArgs).1,
         .error (.typeError "Wrong 'layers_config' element tuple length.")⟩ :=
  init_fails_before_building mutationArgs 0
    (.typeError "Wrong 'layers_config' element tuple length.") rfl

/-- C4 (amended): for every successful construction whose `layers_config`
entries carry no explicit `name` keyword, the `architecture` mapping has
exactly one key per entry, its keys are the generated default names
`<kind>_<index>` in entry order, and those generated names are
collision-free.  (With explicit `name` keywords the claim fails: see the
counterexample, where an explicit name collides with a later default name
and a stack entry is overwritten.) -/
theorem arch_keys_default_names (a : InitArgs) (nid : Nat) (net : Network)
    (entries : List CfgEntry)
    (hlc : a.layers_config = .lcList entries)
    (hwf : ∀ e ∈ entries, EntryWF e)
    (hok : (initDNN a nid).result = .ok net) :
    net.architecture.map Prod.fst
        = (genNames (fun _ => 0) (entryKinds entries)).map PyScalar.sStr
      ∧ (net.architecture.map Prod.fst).Nodup
      ∧ net.architecture.length = entries.length := by
  have hshape : ∀ e ∈ entries, ∃ l, e = CfgEntry.ceTuple l ∧ l.length = 3 := by
    intro e he
    obtain ⟨k, u, kw, rfl, -, -⟩ := hwf e he
    exact ⟨_, rfl, rfl⟩
  obtain ⟨out, hbe, hlay⟩ := initDNN_ok_build hlc hshape hok
  have hnames := buildEntries_names entries nid ⟨[], []⟩ out hwf
    (fun p hp => absurd hp (List.not_mem_nil p)) hbe
  have hzero : countsF ⟨[], []⟩ = fun _ => 0 := rfl
  rw [hzero] at hnames
  simp only [List.map_nil, List.nil_append] at hnames
  have harch : net.architecture.map Prod.fst = net.layers.map Prod.fst := by
    unfold Network.architecture
    rw [List.map_map]
    rfl
  have hkinds : ∀ k ∈ entryKinds entries, (reference_dict.lookup k).isSome = true := by
    intro k hk
    simp only [entryKinds, List.mem_map] at hk
    obtain ⟨e, he, hke⟩ := hk
    obtain ⟨k2, u, kw, rfl, hreg, -⟩ := hwf e he
    subst hke
    exact hreg
  have hinj : Function.Injective PyScalar.sStr := fun x y h => by injection h
  refine ⟨?_, ?_, ?_⟩
  · rw [harch, hlay, hnames]
  · rw [harch, hlay, hnames]
    exact (genNames_nodup (entryKinds entries) (fun _ => 0) hkinds).map hinj
  · have hlen := congrArg List.length hnames
    simp only [List.length_map] at hlen
    rw [show net.architecture.length = net.layers.length by
        simp [Network.architecture], hlay, hlen, genNames_length]
    simp [entryKinds]

/-- C4 (counterexample): the first entry's explicit `name` keyword equals
the default name later generated for the second entry, so the second layer
overwrites the first stack entry: construction succeeds but the
architecture has a single key while `layers_config` has two entries. -/
theorem arch_keys_name_clash_counterexample :
    ((initDNN nameClashArgs 0).result.map (fun n => n.architecture.map Prod.fst))
        = .ok [PyScalar.sStr "dense_layer_1"]
      ∧ ((initDNN nameClashArgs 0).result.map (fun n => n.architecture.length))
          = .ok 1
      ∧ lcLength nameClashArgs.layers_config = 2 :=
  ⟨rfl, rfl, rfl⟩

/-- Witness for the amended C4 theorem at the specification's concrete
scenario: keys `dense_layer_0`, `dense_layer_1`, in order, two keys. -/
theorem arch_keys_default_names_witness :
    exNet.architecture.map Prod.fst
        = [PyScalar.sStr "dense_layer_0", PyScalar.sStr "dense_layer_1"]
      ∧ (exNet.architecture.map Prod.fst).Nodup
      ∧ exNet.architecture.length = 2 := by
  have h := arch_keys_default_names exArgs 1 exNet
    [ .ceTuple [.vScalar (.sStr "dense_layer"), .vScalar (.sInt 32), .vDict []],
      .ceTuple [.vScalar (.sStr "dense_layer"), .vScalar (.sInt 16), .vDict []] ]
    rfl
    (by
      intro e he
      simp only [List.mem_cons, List.not_mem_nil, or_false] at he
      rcases he with rfl | rfl
      · exact ⟨"dense_layer", _, _, rfl, rfl, rfl⟩
      · exact ⟨"dense_layer", _, _, rfl, rfl, rfl⟩)
    rfl
  refine ⟨?_, h.2.1, h.2.2⟩
  rw [h.1]
  rfl

/-- C8: with otherwise valid arguments and any positive `n_targets`, a
`norm_params` array of shape exactly `(n_targets,)` passes validation, and
an array of any other shape fails with the shape-mismatch `TypeError`. -/
theorem norm_params_shape_check (n : Int) (hn : 0 < n) (arr : NdArray) :
    (arr.shape = [n] → (validate_args (normArgs n (some arr))).2 = none)
      ∧ (arr.shape ≠ [n] →
          (validate_args (normArgs n (some arr))).2
            = some (.typeError ("Wrong 'norm_params' shape: "
                ++ toString (repr arr.shape) ++ " instead of ("
                ++ toString n ++ ",)"))) := by
  have hshape : checkInputShape (InputShapeVal.isTuple [none, some 40]) = none := rfl
  have hval : validateEntriesFrom
      [CfgEntry.ceTuple [.vScalar (.sStr "dense_layer"), .vScalar (.sInt 32), .vDict []]]
      = ([CfgEntry.ceTuple [.vScalar (.sStr "dense_layer"), .vScalar (.sInt 32), .vDict []]],
         none) := rfl
  constructor
  · intro h
    simp only [validate_args, normArgs, hshape, hval]
    rw [if_neg (by omega), if_pos h]
  · intro h
    simp only [validate_args, normArgs, hshape, hval]
    rw [if_neg (by omega), if_neg h]

/-- Witness for the C8 theorem: `n_targets = 5` accepts shape `(5,)` and
rejects shape `(4,)`. -/
theorem norm_params_shape_check_witness :
    (validate_args (normArgs 5 (some ⟨[5]⟩))).2 = none
      ∧ (validate_args (normArgs 5 (some ⟨[4]⟩))).2
          = some (.typeError ("Wrong 'norm_params' shape: "
              ++ toString (repr ([4] : List Int)) ++ " instead of ("
              ++ toString (5 : Int) ++ ",)")) :=
  ⟨(norm_params_shape_check 5 (by decide) ⟨[5]⟩).1 rfl,
   (norm_params_shape_check 5 (by decide) ⟨[4]⟩).2 (by decide)⟩

/-- C9: `get_layer_class` on a string absent from the registry fails with a
lookup error identifying that name; on a type it returns the type unchanged
when it subclasses `AbstractRNN`, `NeuralLayer` or `SignalFilter`, and
fails with a `TypeError` otherwise. -/
theorem get_layer_class_contract :
    (∀ s : String, reference_dict.lookup s = none →
        get_layer_class (.vScalar (.sStr s)) = .error (.keyError s))
      ∧ (∀ c : LayerClassT,
          (isSubAbstractRNN c || isSubNeuralLayer c || isSubSignalFilter c) = true →
            get_layer_class (.vScalar (.sType c)) = .ok c)
      ∧ (∀ c : LayerClassT,
          (isSubAbstractRNN c || isSubNeuralLayer c || isSubSignalFilter c) = false →
            get_layer_class (.vScalar (.sType c))
              = .error (.typeError "'layer_class' should be a str or an adequate class.")) := by
  refine ⟨?_, ?_, ?_⟩
  · intro s h
    simp [get_layer_class, get_object, h]
  · intro c h
    simp [get_layer_class, h]
  · intro c h
    simp [get_layer_class, h]

/-- Witness for the C9 theorem: the unknown name `"unknown_kind"`, the
accepted type `DenseLayer` and an unrelated type. -/
theorem get_layer_class_contract_witness :
    get_layer_class (.vScalar (.sStr "unknown_kind")) = .error (.keyError "unknown_kind")
      ∧ get_layer_class (.vScalar (.sType .DenseLayer)) = .ok .DenseLayer
      ∧ get_layer_class (.vScalar (.sType (.OtherClass "Foo")))
          = .error (.typeError "'layer_class' should be a str or an adequate class.") :=
  ⟨get_layer_class_contract.1 "unknown_kind" rfl,
   get_layer_class_contract.2.1 .DenseLayer rfl,
   get_layer_class_contract.2.2 (.OtherClass "Foo") rfl⟩

/-- C10: an entry whose class-or-name element is a type object passes the
per-element checks of `_validate_args`, yet `_build_hidden_layers` always
raises a `TypeError` on it; for a type that `get_layer_class` accepts, the
failure is the unconditionally evaluated default-name synthesis (type +
str concatenation) — even when the entry's kwargs supply an explicit
`name` override. -/
theorem type_layer_class_unusable (nid : Nat) (st : BuildState)
    (c : LayerClassT) (n : Int) (kw : List (String × PyScalar)) :
    checkEntryElems [.vScalar (.sType c), .vScalar (.sInt n), .vDict kw] = none
      ∧ (∃ e : PyError,
          buildEntry nid st
              (.ceTuple [.vScalar (.sType c), .vScalar (.sInt n), .vDict kw])
            = .error e
          ∧ e.isTypeError = true
          ∧ ((isSubAbstractRNN c || isSubNeuralLayer c || isSubSignalFilter c) = true →
              e = .typeError "unsupported operand type(s) for +")) := by
  refine ⟨rfl, ?_⟩
  by_cases hsub : (isSubAbstractRNN c || isSubNeuralLayer c || isSubSignalFilter c) = true
  · refine ⟨.typeError "unsupported operand type(s) for +", ?_, rfl, fun _ => rfl⟩
    simp only [buildEntry, get_layer_class]
    rw [if_pos hsub]
    rfl
  · refine ⟨.typeError "'layer_class' should be a str or an adequate class.", ?_, rfl, ?_⟩
    · simp only [buildEntry, get_layer_class]
      rw [if_neg hsub]
    · intro h
      exact absurd h hsub

/-- Witness for the C10 theorem: a `DenseLayer` type entry with an explicit
`name` override still fails with the concatenation `TypeError`. -/
theorem type_layer_class_unusable_witness :
    checkEntryElems
        [.vScalar (.sType .DenseLayer), .vScalar (.sInt 8),
         .vDict [("name", .sStr "x")]] = none
      ∧ ∃ e : PyError,
          buildEntry 0 ⟨[], []⟩
              (.ceTuple [.vScalar (.sType .DenseLayer), .vScalar (.sInt 8),
                .vDict [("name", .sStr "x")]])
            = .error e
          ∧ e.isTypeError = true
          ∧ ((isSubAbstractRNN .DenseLayer || isSubNeuralLayer .DenseLayer
                || isSubSignalFilter .DenseLayer) = true →
              e = .typeError "unsupported operand type(s) for +") :=
  type_layer_class_unusable 0 ⟨[], []⟩ .DenseLayer 8 [("name", .sStr "x")]

theorem lookup_keep_prob_dense (kw : List (String × PyScalar)) :
    (kw.filter (fun p => p.1 ≠ "name")).lookup "keep_prob" = kw.lookup "keep_prob" :=
  lookup_filter_ne _ _ _ (by decide)

theorem lookup_keep_prob_rnn (kw : List (String × PyScalar)) (q : PyScalar) :
    (dictSet (kw.filter (fun p => p.1 ≠ "name")) "name" q).lookup "keep_prob"
      = kw.lookup "keep_prob" := by
  rw [lookup_dictSet_other _ _ _ _ (by decide), lookup_filter_ne _ _ _ (by decide)]

theorem lookup_name_after_pops (kw : List (String × PyScalar)) (q : PyScalar) :
    ((dictSet (kw.filter (fun p => p.1 ≠ "name")) "name" q).filter
        (fun p => p.1 ≠ "keep_prob")).lookup "name" = some q := by
  rw [lookup_filter_ne _ _ _ (by decide), lookup_dictSet_self]

/-- C7: for a spec resolving to a dense or recurrent kind, the layer is
instantiated with `keep_prob` equal to the value under the spec's
`keep_prob` keyword when that key is present (including an explicit
`None`, which is passed through and disables dropout for that layer) and
equal to the network-wide placeholder otherwise; for recurrent kinds the
layer's internal `name` keyword is additionally qualified with the network
instance's identity `id(self)`.  `s` is the layer's resolved stack name:
the explicit `name` override if one is given, the generated default
otherwise. -/
theorem keep_prob_injection (nid : Nat) (st : BuildState) (k : String)
    (hk : k = "dense_layer" ∨ k = "rnn_stack" ∨ k = "bi_rnn_stack")
    (u : PyVal1) (kw : List (String × PyScalar)) (s : String)
    (hs : kw.lookup "name" = some (.sStr s)
      ∨ (kw.lookup "name" = none
          ∧ s = mkDefName k (countsGet st.counts (.vScalar (.sStr k))))) :
    ∃ st1, buildEntry nid st (.ceTuple [.vScalar (.sStr k), u, .vDict kw]) = .ok st1
      ∧ ∃ L : Layer, st1.layers.lookup (.sStr s) = some L
        ∧ L.keep_prob = some (match kw.lookup "keep_prob" with
            | some v => KeepProbArg.explicitArg v
            | none => KeepProbArg.holderDefault)
        ∧ (k = "dense_layer" → L.cls = .DenseLayer)
        ∧ ((k = "rnn_stack" ∨ k = "bi_rnn_stack") →
            isSubAbstractRNN L.cls = true
              ∧ L.kwargs.lookup "name" = some (.sStr (s ++ "_" ++ decStr nid))) := by
  rcases hk with rfl | rfl | rfl <;>
    rcases hs with hnm | ⟨hnm, rfl⟩ <;>
      simp only [buildEntry,
        show get_layer_class (PyVal1.vScalar (PyScalar.sStr "dense_layer"))
          = Except.ok LayerClassT.DenseLayer from rfl,
        show get_layer_class (PyVal1.vScalar (PyScalar.sStr "rnn_stack"))
          = Except.ok LayerClassT.RecurrentNeuralNetwork from rfl,
        show get_layer_class (PyVal1.vScalar (PyScalar.sStr "bi_rnn_stack"))
          = Except.ok LayerClassT.BidirectionalRNN from rfl,
        defaultNameOf, dictPop, hnm, Option.getD_some, Option.getD_none,
        isSubDenseLayer, isSubAbstractRNN, Bool.or_true, Bool.true_or,
        Bool.false_or, Bool.or_false] <;>
      refine ⟨_, rfl, _, lookup_odInsert _ _ _, ?_, ?_, ?_⟩ <;>
      first
        | (simp only [lookup_keep_prob_rnn, lookup_keep_prob_dense]; done)
        | (intro h; exact ⟨rfl, by simp only [lookup_name_after_pops]⟩)
        | (intro h; first | rfl | exact absurd h (by decide))

/-- Witness for the C7 theorem: a recurrent-stack spec with an explicit
`keep_prob = None` override, on a fresh build state with instance identity
42. -/
theorem keep_prob_injection_witness :
    ∃ st1, buildEntry 42 ⟨[], []⟩
        (.ceTuple [.vScalar (.sStr "rnn_stack"), .vScalar (.sInt 8),
          .vDict [("keep_prob", .sNone)]]) = .ok st1
      ∧ ∃ L : Layer, st1.layers.lookup (.sStr "rnn_stack_0") = some L
        ∧ L.keep_prob = some (match [("keep_prob", PyScalar.sNone)].lookup "keep_prob" with
            | some v => KeepProbArg.explicitArg v
            | none => KeepProbArg.holderDefault)
        ∧ ("rnn_stack" = "dense_layer" → L.cls = .DenseLayer)
        ∧ (("rnn_stack" = "rnn_stack" ∨ "rnn_stack" = "bi_rnn_stack") →
            isSubAbstractRNN L.cls = true
              ∧ L.kwargs.lookup "name" = some (.sStr ("rnn_stack_0" ++ "_" ++ decStr 42))) :=
  keep_prob_injection 42 ⟨[], []⟩ "rnn_stack" (Or.inr (Or.inl rfl))
    (.vScalar (.sInt 8)) [("keep_prob", .sNone)] "rnn_stack_0"
    (Or.inr ⟨rfl, by decide⟩)

end Ac2Art
